import Mathlib

/-!
Shallow embedding of `src/octoprint_karmen/static/js/karmen.js`
(the Karmen OctoPrint plugin's browser view model): the version
comparator / compatibility gate (`versionCompare`, `performCheck`)
and the connection-status interpreter (`onDataUpdaterPluginMessage`).
-/

set_option autoImplicit false
set_option linter.unnecessarySeqFocus false

namespace Karmen

/-- Result of `versionCompare`: JS returns `-1`, `0`, `1`, or `NaN`. -/
inductive CmpRes where
  | lt : CmpRes
  | eq : CmpRes
  | gt : CmpRes
  | nan : CmpRes
deriving DecidableEq, Repr

/-- JS `v.split('.')` on the character list of the string: splitting on a
single-character separator, where an empty string yields `[""]` and empty
fields between separators are kept. -/
def splitOnDot : List Char → List (List Char)
  | [] => [[]]
  | c :: cs =>
    if c = '.' then [] :: splitOnDot cs
    else
      match splitOnDot cs with
      | [] => [[c]]
      | p :: ps => (c :: p) :: ps

/-- `isValidPart` from `versionCompare`: the part must match `^\d+$` by
default, or `^\d+[A-Za-z]*$` when the `lexicographical` option is set
(one or more digits followed by zero or more ASCII letters). -/
def isValidPart (lexicographical : Bool) (x : List Char) : Bool :=
  if lexicographical then
    (x.takeWhile Char.isDigit) ≠ [] &&
      (x.dropWhile Char.isDigit).all (fun c => c.isUpper || c.isLower)
  else
    x ≠ [] && x.all Char.isDigit

/-- JS `Number(s)` on a string of decimal digits (the only case in which
`versionCompare` applies it, after validation has passed). -/
def toNum (x : List Char) : Nat :=
  x.foldl (fun acc c => acc * 10 + (c.toNat - ('0').toNat)) 0

/-- The part-by-part comparison loop of `versionCompare` on numeric parts:
at each index the exhaustion of the right list is checked first (`return 1`),
then equality, then order; after the loop, a remaining right tail gives
`return -1`, otherwise `return 0`. -/
def cmpParts : List Nat → List Nat → CmpRes
  | [], [] => CmpRes.eq
  | [], _ :: _ => CmpRes.lt
  | _ :: _, [] => CmpRes.gt
  | a :: as, b :: bs =>
    if a = b then cmpParts as bs
    else if a > b then CmpRes.gt
    else CmpRes.lt

/-- JS string `<` (lexicographic by code unit) on character lists, as used by
the comparison loop in lexicographical mode. -/
def lexLtChars : List Char → List Char → Bool
  | [], [] => false
  | [], _ :: _ => true
  | _ :: _, [] => false
  | a :: as, b :: bs =>
    if a.toNat < b.toNat then true
    else if b.toNat < a.toNat then false
    else lexLtChars as bs

/-- The comparison loop of `versionCompare` on string parts (lexicographical
mode): same control flow as `cmpParts`, with JS string comparison. -/
def cmpPartsLex : List (List Char) → List (List Char) → CmpRes
  | [], [] => CmpRes.eq
  | [], _ :: _ => CmpRes.lt
  | _ :: _, [] => CmpRes.gt
  | a :: as, b :: bs =>
    if a = b then cmpPartsLex as bs
    else if lexLtChars b a then CmpRes.gt
    else CmpRes.lt

/-- The validation pass of `versionCompare`: `parts.every(isValidPart)`. -/
def validVersion (lexicographical : Bool) (v : String) : Bool :=
  (splitOnDot v.data).all (isValidPart lexicographical)

/-- The numeric part sequence of a version string: `v.split('.').map(Number)`. -/
def numParts (v : String) : List Nat :=
  (splitOnDot v.data).map toNum

/-- `versionCompare(v1, v2, options)` from karmen.js. Splits both strings on
`.`, validates every part (returning the `NaN` sentinel on failure), pads the
shorter part list with `"0"` entries when `zeroExtend` is set, converts parts
to numbers unless `lexicographical` is set, and runs the comparison loop. -/
def versionCompare (v1 v2 : String) (lexicographical zeroExtend : Bool) : CmpRes :=
  let v1parts := splitOnDot v1.data
  let v2parts := splitOnDot v2.data
  if validVersion lexicographical v1 && validVersion lexicographical v2 then
    let v1p := if zeroExtend
      then v1parts ++ List.replicate (v2parts.length - v1parts.length) [('0')]
      else v1parts
    let v2p := if zeroExtend
      then v2parts ++ List.replicate (v1parts.length - v2parts.length) [('0')]
      else v2parts
    if lexicographical then cmpPartsLex v1p v2p
    else cmpParts (v1p.map toNum) (v2p.map toNum)
  else CmpRes.nan

/-- The PNotify payload built by `performCheck` when the version check fails:
`{text, title, type, delay}`. -/
structure Notification where
  text : String
  title : String
  type : String
  delay : Nat
deriving DecidableEq, Repr

/-- The template-literal text of the warning notification, with the host
version interpolated. -/
def warningText (version : String) : String :=
  "This version of Karmen Connector is not supported in Octoprint version "
    ++ version ++ ".\n" ++
  "                        Please upgrade to Octoprint 1.8+ or use legacy plugin.\n" ++
  "                        Check plugin settings for details."

/-- `performCheck` from karmen.js, given the version string extracted from
`info.systeminfo["octoprint.version"]`: if `versionCompare(version, "1.8") < 0`
(true only for the `-1` result, false for `0`, `1` and `NaN`), a PNotify
warning is created; otherwise nothing happens. -/
def performCheck (version : String) : Option Notification :=
  if versionCompare version "1.8" false false = CmpRes.lt then
    some { text := warningText version
           title := "Karmen Connector"
           type := "error"
           delay := 10000 }
  else none

/-- The inbound push message `data`: `connectionStatus`, `error` and `advise`
are optional string attributes (`none` models an absent attribute). -/
structure PluginMessage where
  connectionStatus : Option String
  error : Option String
  advise : Option String
deriving DecidableEq, Repr

/-- The three knockout observables of `KarmenViewModel`. -/
structure DisplayState where
  connectionStatus : String
  iconTitle : String
  connectionStatusDescription : String
deriving DecidableEq, Repr

/-- The initial values of the three observables at construction. -/
def initialState : DisplayState :=
  { connectionStatus := "karmen-status-connecting"
    iconTitle := "<span class='text-info'>Loading</span>"
    connectionStatusDescription := "Loading and connecting to Karmen cloud." }

/-- JS truthiness of an optional string attribute: `undefined` and `""` are
falsy, every other string is truthy. -/
def optTruthy : Option String → Bool
  | none => false
  | some s => decide (s ≠ "")

/-- JS template-literal interpolation of a possibly-absent attribute:
`${x}` renders the literal text `undefined` when `x` is `undefined`. -/
def tmpl : Option String → String
  | none => "undefined"
  | some s => s

/-- `self.onDataUpdaterPluginMessage(plugin, data)` from karmen.js, as a
function on the observable state: returns early when `plugin != "karmen"` or
when `data.connectionStatus` is falsy; otherwise sets `connectionStatus` to
`karmen-status-<status>` and `iconTitle` to `<status>`, then overrides
`iconTitle` and `connectionStatusDescription` according to the recognized
status. (The local `status_description` computed from `error`/`advise` is
dead in the source: it is never written to an observable, so it is omitted.) -/
def onDataUpdaterPluginMessage (plugin : String) (data : PluginMessage)
    (st : DisplayState) : DisplayState :=
  if plugin ≠ "karmen" then st
  else if optTruthy data.connectionStatus then
    let status := (data.connectionStatus).getD ""
    let st1 : DisplayState :=
      { st with connectionStatus := "karmen-status-" ++ status
                iconTitle := status }
    if status = "connected" then
      { st1 with iconTitle := "<span class=\"text-success\">Connected</span>"
                 connectionStatusDescription :=
                   "Click the icon to go to see your printer in Karmen Cloud." }
    else if status = "connecting" then
      { st1 with iconTitle := "<span class=\"text-warning\">Connecting ...</span>"
                 connectionStatusDescription :=
                   "Connecting to Karmen servers. " ++
                     (if optTruthy data.error then
                        "<p>Last error was:</p> <pre>" ++ tmpl data.error ++ "</pre>"
                      else "") }
    else if status = "disconnecting" then
      { st1 with iconTitle := "<span class=\"text-warning\">Disconnecting ...</span>"
                 connectionStatusDescription := "Disconnecting from Karmen." }
    else if status = "disconnected" then
      if optTruthy data.error then
        { st1 with iconTitle := "<span class=\"text-error\">Connection error</span>"
                   connectionStatusDescription :=
                     "<p class=\"text-error\">" ++ tmpl data.advise ++
                       "</p><p>Error:<pre>" ++ tmpl data.error ++ ".</pre></p>" }
      else
        { st1 with iconTitle := "<span class=\"text-warning\">Disconnected</span>"
                   connectionStatusDescription :=
                     "<p class=\"text-error\">" ++ tmpl data.advise ++ "</p>" }
    else st1
  else st

/-! ### Helper lemmas about the comparison loop -/

theorem cmpParts_self (l : List Nat) : cmpParts l l = CmpRes.eq := by
  induction l with
  | nil => rfl
  | cons a as ih => simp [cmpParts, ih]

theorem cmpPartsLex_self (l : List (List Char)) : cmpPartsLex l l = CmpRes.eq := by
  induction l with
  | nil => rfl
  | cons a as ih => simp [cmpPartsLex, ih]

theorem cmpParts_append_right (p l : List Nat) (hl : l ≠ []) :
    cmpParts p (p ++ l) = CmpRes.lt := by
  induction p with
  | nil =>
    cases l with
    | nil => exact absurd rfl hl
    | cons x xs => rfl
  | cons a as ih => simp [cmpParts, ih]

theorem cmpParts_append_left (p l : List Nat) (hl : l ≠ []) :
    cmpParts (p ++ l) p = CmpRes.gt := by
  induction p with
  | nil =>
    cases l with
    | nil => exact absurd rfl hl
    | cons x xs => rfl
  | cons a as ih => simp [cmpParts, ih]

theorem toNum_zeroPart : toNum [('0')] = 0 := rfl

theorem map_toNum_pad (l : List (List Char)) (m : Nat) :
    (l ++ List.replicate m [('0')]).map toNum = l.map toNum ++ List.replicate m 0 := by
  simp [List.map_append, List.map_replicate]
  exact Or.inr rfl

theorem versionCompare_noZE_unfold (v1 v2 : String)
    (h1 : validVersion false v1 = true) (h2 : validVersion false v2 = true) :
    versionCompare v1 v2 false false = cmpParts (numParts v1) (numParts v2) := by
  simp [versionCompare, h1, h2, numParts]

theorem versionCompare_ZE_unfold (v1 v2 : String)
    (h1 : validVersion false v1 = true) (h2 : validVersion false v2 = true) :
    versionCompare v1 v2 false true =
      cmpParts
        (numParts v1 ++
          List.replicate ((splitOnDot v2.data).length - (splitOnDot v1.data).length) 0)
        (numParts v2 ++
          List.replicate ((splitOnDot v1.data).length - (splitOnDot v2.data).length) 0) := by
  simp [versionCompare, h1, h2, numParts, map_toNum_pad, toNum_zeroPart]

/-! ### Claim theorems -/

/-- C1: for valid version strings compared without `zeroExtend`, when one
operand's numeric part sequence is a proper prefix of the other's, the right
operand running out of parts first yields `gt` (the `1` return inside the
scan loop) and the left operand being the shorter one yields `lt` (the final
length check). -/
theorem versionCompare_proper_pfx (v1 v2 : String)
    (h1 : validVersion false v1 = true) (h2 : validVersion false v2 = true)
    (l : List Nat) (hl : l ≠ [])
    (hpre : numParts v2 = numParts v1 ++ l) :
    versionCompare v1 v2 false false = CmpRes.lt ∧
    versionCompare v2 v1 false false = CmpRes.gt := by
  rw [versionCompare_noZE_unfold v1 v2 h1 h2,
      versionCompare_noZE_unfold v2 v1 h2 h1, hpre]
  exact ⟨cmpParts_append_right _ _ hl, cmpParts_append_left _ _ hl⟩

/-- C1 witness: `compare("1.2", "1.2.0") == less` and
`compare("1.2.0", "1.2") == greater`. -/
theorem versionCompare_proper_pfx_witness :
    versionCompare "1.2" "1.2.0" false false = CmpRes.lt ∧
    versionCompare "1.2.0" "1.2" false false = CmpRes.gt :=
  versionCompare_proper_pfx "1.2" "1.2.0" (by decide) (by decide)
    [0] (by decide) (by decide)

/-- C3: if any dot-separated part of either operand fails the active mode's
validation pattern, `versionCompare` returns the not-a-number sentinel. -/
theorem versionCompare_invalid (v1 v2 : String) (lex ze : Bool)
    (h : validVersion lex v1 = false ∨ validVersion lex v2 = false) :
    versionCompare v1 v2 lex ze = CmpRes.nan := by
  rcases h with h | h <;> simp [versionCompare, h]

/-- C3 witness: `compare("1.a", "1.0")` in default mode is the sentinel. -/
theorem versionCompare_invalid_witness :
    versionCompare "1.a" "1.0" false false = CmpRes.nan :=
  versionCompare_invalid "1.a" "1.0" false false (Or.inl (by decide))

/-- C8: version comparison is reflexive: for every version string all of
whose parts are valid for the active mode, `compare(v, v)` is `equal`
(in either mode, with or without `zeroExtend`). -/
theorem versionCompare_refl (v : String) (lex ze : Bool)
    (h : validVersion lex v = true) :
    versionCompare v v lex ze = CmpRes.eq := by
  cases lex with
  | false =>
    cases ze with
    | false => rw [versionCompare_noZE_unfold v v h h]; exact cmpParts_self _
    | true =>
      rw [versionCompare_ZE_unfold v v h h]
      simp [cmpParts_self]
  | true =>
    simp only [versionCompare, h, Bool.and_self, if_true]
    cases ze with
    | false => simp [cmpPartsLex_self]
    | true => simp [cmpPartsLex_self]

/-- C8 witness: `compare("1.2.3", "1.2.3") == equal` in default mode. -/
theorem versionCompare_refl_witness :
    versionCompare "1.2.3" "1.2.3" false false = CmpRes.eq :=
  versionCompare_refl "1.2.3" false false (by decide)

/-- C9: with `zeroExtend` set, the shorter valid part sequence is padded with
`"0"` parts before comparison, so two valid versions differing only by
trailing zero parts compare `equal`, in both argument orders. -/
theorem versionCompare_zeroExtend (v1 v2 : String)
    (h1 : validVersion false v1 = true) (h2 : validVersion false v2 = true)
    (k : Nat) (hpre : numParts v2 = numParts v1 ++ List.replicate k 0) :
    versionCompare v1 v2 false true = CmpRes.eq ∧
    versionCompare v2 v1 false true = CmpRes.eq := by
  have hlen2 : (splitOnDot v2.data).length = (splitOnDot v1.data).length + k := by
    have hc := congrArg List.length hpre
    simpa [numParts] using hc
  rw [versionCompare_ZE_unfold v1 v2 h1 h2, versionCompare_ZE_unfold v2 v1 h2 h1,
      hlen2, hpre]
  simp [cmpParts_self]

/-- C9 witness: `compare("1.2", "1.2.0", {zeroExtend:true}) == equal`. -/
theorem versionCompare_zeroExtend_witness :
    versionCompare "1.2" "1.2.0" false true = CmpRes.eq ∧
    versionCompare "1.2.0" "1.2" false true = CmpRes.eq :=
  versionCompare_zeroExtend "1.2" "1.2.0" (by decide) (by decide) 1 (by decide)

/-- C4: `performCheck` produces a notification exactly when the comparison of
the host version against the minimum version "1.8" is `lt`; the notification
has severity "error", a 10000 ms auto-dismiss delay, and its text is the
warning template with the host version interpolated. On `eq`, `gt` or the
`NaN` sentinel, no notification is produced. -/
theorem performCheck_spec (v : String) :
    ((performCheck v).isSome = true ↔
      versionCompare v "1.8" false false = CmpRes.lt) ∧
    (∀ n, performCheck v = some n →
      n.type = "error" ∧ n.delay = 10000 ∧ n.text = warningText v) := by
  by_cases h : versionCompare v "1.8" false false = CmpRes.lt
  · refine ⟨by simp [performCheck, h], ?_⟩
    intro n hn
    simp [performCheck, h] at hn
    simp [← hn]
  · refine ⟨by simp [performCheck, h], ?_⟩
    intro n hn
    simp [performCheck, h] at hn

/-- C4 witness: `isSupported("1.7.9", "1.8")` triggers a notification and
`isSupported("1.8.1", "1.8")` triggers none. -/
theorem performCheck_spec_witness :
    (performCheck "1.7.9").isSome = true ∧ performCheck "1.8.1" = none :=
  ⟨(performCheck_spec "1.7.9").1.mpr (by decide), by decide⟩

/-- C2 counterexample: a message with the unrecognized status `"foo"` does
NOT leave all three DisplayState fields unchanged — the statusClass field
changes (and so does the title). -/
theorem interpret_unrecognized_counterexample :
    (onDataUpdaterPluginMessage "karmen"
        { connectionStatus := some "foo", error := none, advise := none }
        initialState).connectionStatus ≠ initialState.connectionStatus ∧
    (onDataUpdaterPluginMessage "karmen"
        { connectionStatus := some "foo", error := none, advise := none }
        initialState).iconTitle ≠ initialState.iconTitle := by
  decide

/-- C2 amended: for a matching message with a truthy but unrecognized status
`s`, the handler still sets statusClass to `"karmen-status-" ++ s` and the
title to `s`, and only the description is left unchanged. -/
theorem interpret_unrecognized (s : String) (data : PluginMessage)
    (st : DisplayState)
    (hcs : data.connectionStatus = some s) (hne : s ≠ "")
    (h1 : s ≠ "connected") (h2 : s ≠ "connecting")
    (h3 : s ≠ "disconnecting") (h4 : s ≠ "disconnected") :
    onDataUpdaterPluginMessage "karmen" data st =
      { st with connectionStatus := "karmen-status-" ++ s, iconTitle := s } := by
  simp [onDataUpdaterPluginMessage, optTruthy, hcs, hne, h1, h2, h3, h4]

/-- C2 amended witness: the unrecognized status `"foo"` yields exactly the
statusClass `"karmen-status-foo"` and title `"foo"`, with the description
untouched. -/
theorem interpret_unrecognized_witness :
    onDataUpdaterPluginMessage "karmen"
        { connectionStatus := some "foo", error := none, advise := none }
        initialState =
      { initialState with connectionStatus := "karmen-status-foo",
                          iconTitle := "foo" } :=
  interpret_unrecognized "foo"
    { connectionStatus := some "foo", error := none, advise := none }
    initialState rfl (by decide) (by decide) (by decide) (by decide) (by decide)

/-- C5 counterexample: for the accepted status `"connecting"`, the statusClass
field is not `"status-connecting"` (it is `"karmen-status-connecting"`). -/
theorem interpret_statusClass_counterexample :
    (onDataUpdaterPluginMessage "karmen"
        { connectionStatus := some "connecting", error := none, advise := none }
        initialState).connectionStatus ≠ "status-connecting" := by
  decide

/-- C5 amended: for every accepted status value `s`, the statusClass produced
by the handler is exactly `"karmen-status-" ++ s`. -/
theorem interpret_statusClass (s : String) (data : PluginMessage)
    (st : DisplayState)
    (hcs : data.connectionStatus = some s)
    (hs : s = "connected" ∨ s = "connecting" ∨ s = "disconnecting" ∨
      s = "disconnected") :
    (onDataUpdaterPluginMessage "karmen" data st).connectionStatus =
      "karmen-status-" ++ s := by
  rcases hs with rfl | rfl | rfl | rfl <;>
    simp [onDataUpdaterPluginMessage, optTruthy, hcs] <;>
    (split <;> rfl)

/-- C5 amended witness: status `"connected"` yields the statusClass
`"karmen-status-connected"`. -/
theorem interpret_statusClass_witness :
    (onDataUpdaterPluginMessage "karmen"
        { connectionStatus := some "connected", error := none, advise := none }
        initialState).connectionStatus = "karmen-status-connected" :=
  interpret_statusClass "connected"
    { connectionStatus := some "connected", error := none, advise := none }
    initialState rfl (Or.inl rfl)

/-- C6: a `"disconnected"` message with the optional `advise` attribute absent
does NOT simply omit that portion of the description: the rendered description
contains the literal placeholder text `undefined` (from interpolating the
absent attribute), both without and with an `error` attribute. -/
theorem interpret_missing_advise_renders_undefined :
    (onDataUpdaterPluginMessage "karmen"
        { connectionStatus := some "disconnected", error := none, advise := none }
        initialState).connectionStatusDescription =
      "<p class=\"text-error\">undefined</p>" ∧
    (onDataUpdaterPluginMessage "karmen"
        { connectionStatus := some "disconnected", error := some "timeout",
          advise := none }
        initialState).connectionStatusDescription =
      "<p class=\"text-error\">undefined</p><p>Error:<pre>timeout.</pre></p>" := by
  decide

/-- C7: a push message whose pluginIdentifier is not `"karmen"` changes
nothing: the handler returns the state unchanged, whatever the message. -/
theorem interpret_other_plugin_noop (plugin : String) (data : PluginMessage)
    (st : DisplayState) (h : plugin ≠ "karmen") :
    onDataUpdaterPluginMessage plugin data st = st := by
  simp [onDataUpdaterPluginMessage, h]

/-- C7 witness: a `"softwareupdate"` message leaves the initial state
untouched. -/
theorem interpret_other_plugin_noop_witness :
    onDataUpdaterPluginMessage "softwareupdate"
        { connectionStatus := some "disconnected", error := some "e",
          advise := some "a" }
        initialState = initialState :=
  interpret_other_plugin_noop "softwareupdate"
    { connectionStatus := some "disconnected", error := some "e",
      advise := some "a" }
    initialState (by decide)

/-- C10: a matching message without a truthy `connectionStatus` attribute
(absent or empty string) changes none of the three DisplayState fields. -/
theorem interpret_falsy_status_noop (data : PluginMessage) (st : DisplayState)
    (h : optTruthy data.connectionStatus = false) :
    onDataUpdaterPluginMessage "karmen" data st = st := by
  simp [onDataUpdaterPluginMessage, h]

/-- C10 witness: both an absent `connectionStatus` and an empty-string
`connectionStatus` leave the initial state untouched. -/
theorem interpret_falsy_status_noop_witness :
    onDataUpdaterPluginMessage "karmen"
        { connectionStatus := none, error := some "e", advise := some "a" }
        initialState = initialState ∧
    onDataUpdaterPluginMessage "karmen"
        { connectionStatus := some "", error := some "e", advise := some "a" }
        initialState = initialState :=
  ⟨interpret_falsy_status_noop
      { connectionStatus := none, error := some "e", advise := some "a" }
      initialState (by decide),
   interpret_falsy_status_noop
      { connectionStatus := some "", error := some "e", advise := some "a" }
      initialState (by decide)⟩

end Karmen
